import Mathlib

/-!
Verification of the xtools FFI shims.

The repository has three variants of the same dispatch surface:
* full variant (`src/xtools/backend/python/xtools_ffi.c`): CPython extension
  entry points that marshal a positional tuple of text arguments, append a
  well-known directory to the process search path, import a sibling module,
  resolve the implementation by name and call it;
* mobile variant (`src/xtools/backend/go/runtime/ffi_android.c` and
  `src/xtools/backend/go/toolbot/ffi_android.c`): functions formatting a
  synthetic success envelope into a 1024-byte static buffer with snprintf;
* stub variant (`src/xtools/backend/python/xtools_ffi_stub.c`): exported
  no-op symbols plus a DllMain that returns TRUE.

This file gives a shallow embedding of each variant and proves or refutes
the frozen claims about them.
-/

/-! ### Envelope syntax: a scanner for flat JSON objects

`step` is the transition function of a scanner that accepts exactly the
textual documents of the form `\x7b"key":value,...\x7d` where keys are JSON
strings (with backslash escapes) and values are JSON strings, `true`,
`false`, or digit sequences.  This is the envelope grammar of the spec's
section 6 restricted to the flat shapes the code emits. -/
inductive ScanState where
  | start
  | expectKey
  | inKey
  | inKeyEsc
  | expectColon
  | expectValue
  | inStr
  | inStrEsc
  | lit : List Char → ScanState
  | inNum
  | afterValue
  | done
  | fail
deriving DecidableEq

def step : ScanState → Char → ScanState
  | ScanState.start, c => if c = '\x7b' then ScanState.expectKey else ScanState.fail
  | ScanState.expectKey, c => if c = '"' then ScanState.inKey else ScanState.fail
  | ScanState.inKey, c =>
      if c = '"' then ScanState.expectColon
      else if c = '\\' then ScanState.inKeyEsc
      else ScanState.inKey
  | ScanState.inKeyEsc, _ => ScanState.inKey
  | ScanState.expectColon, c => if c = ':' then ScanState.expectValue else ScanState.fail
  | ScanState.expectValue, c =>
      if c = '"' then ScanState.inStr
      else if c = 't' then ScanState.lit ['r', 'u', 'e']
      else if c = 'f' then ScanState.lit ['a', 'l', 's', 'e']
      else if c.isDigit then ScanState.inNum
      else ScanState.fail
  | ScanState.inStr, c =>
      if c = '"' then ScanState.afterValue
      else if c = '\\' then ScanState.inStrEsc
      else ScanState.inStr
  | ScanState.inStrEsc, _ => ScanState.inStr
  | ScanState.lit l, c =>
      match l with
      | [] => ScanState.fail
      | d :: rest =>
          if c = d then (if rest.isEmpty then ScanState.afterValue else ScanState.lit rest)
          else ScanState.fail
  | ScanState.inNum, c =>
      if c.isDigit then ScanState.inNum
      else if c = ',' then ScanState.expectKey
      else if c = '\x7d' then ScanState.done
      else ScanState.fail
  | ScanState.afterValue, c =>
      if c = ',' then ScanState.expectKey
      else if c = '\x7d' then ScanState.done
      else ScanState.fail
  | ScanState.done, _ => ScanState.fail
  | ScanState.fail, _ => ScanState.fail

def jsonScan (s : String) : ScanState :=
  s.data.foldl step ScanState.start

/-- A string is a well-formed flat JSON object iff the scanner accepts it. -/
def IsFlatJsonObject (s : String) : Prop :=
  jsonScan s = ScanState.done

instance (s : String) : Decidable ( IsFlatJsonObject s) :=
  inferInstanceAs (Decidable (jsonScan s = ScanState.done))

/-- True when a character list contains no quote and no backslash, i.e. it can
sit inside a JSON string literal without escaping. -/
def goodChars (l : List Char) : Bool :=
  l.all fun ch => ch != '"' && ch != '\\'

/-! ### Mobile variant

`snprintf(result, 1024, fmt, ...)` writes at most 1023 characters of the
formatted text into the static buffer; the returned C string is the
formatted text truncated to 1023 characters. -/
def snprintf1024 (cs : List Char) : String :=
  ⟨cs.take 1023⟩

/-- Characters of the envelope formatted by `CheckXboxAccount` in
`src/xtools/backend/go/runtime/ffi_android.c`: the two inputs are
interpolated, unescaped, into the format string. -/
def checkXboxChars (apiKey comboFile : String) : List Char :=
  "\x7b\"success\":true,\"message\":\"Android check\",\"api_key\":\"".data
    ++ apiKey.data
    ++ "\",\"combo_file\":\"".data
    ++ comboFile.data
    ++ "\"\x7d".data

def CheckXboxAccount (apiKey comboFile : String) : String :=
  snprintf1024 (checkXboxChars apiKey comboFile)

/-- Characters of the envelope formatted by `InitializeToolbot` in
`src/xtools/backend/go/toolbot/ffi_android.c`. -/
def toolbotChars (dataDir wordlistDir : String) : List Char :=
  "\x7b\"success\":true,\"message\":\"Toolbot initialized\",\"data_dir\":\"".data
    ++ dataDir.data
    ++ "\",\"wordlist_dir\":\"".data
    ++ wordlistDir.data
    ++ "\"\x7d".data

def InitializeToolbot (dataDir wordlistDir : String) : String :=
  snprintf1024 (toolbotChars dataDir wordlistDir)

/-- Characters of the envelope formatted by `RunTelegramBot` in
`src/xtools/backend/go/toolbot/ffi_android.c`: only `apiId` appears in the
format string; `apiHash` and `phone` are ignored. -/
def telegramChars (apiId : String) : List Char :=
  "\x7b\"success\":true,\"message\":\"Telegram bot\",\"api_id\":\"".data
    ++ apiId.data
    ++ "\"\x7d".data

def RunTelegramBot (apiId apiHash phone : String) : String :=
  snprintf1024 (telegramChars apiId)

/-! ### Full variant (`src/xtools/backend/python/xtools_ffi.c`)

A positional argument handed over by the CPython host: either a text object
or an object the `"s"` format of `PyArg_ParseTuple` cannot decode as text. -/
inductive PyVal where
  | str : String → PyVal
  | nonStr : PyVal
deriving DecidableEq

/-- A Python object returned by the sibling implementation: a text object or
some other object (a number, say).  The dispatch layer never inspects it. -/
inductive PyObj where
  | str : String → PyObj
  | int : Int → PyObj
deriving DecidableEq

/-- A value fetched by `PyObject_GetAttrString`: whether `PyCallable_Check`
accepts it and, if invoked, what `PyObject_CallObject` yields on a tuple of
text arguments (`none` models a raised exception / NULL result). -/
structure PyCallable where
  isCallable : Bool
  impl : List String → Option PyObj

/-- The sibling runtime environment: whether
`PyImport_ImportModule("xtools_ffi_module")` succeeds and, if so, what
`PyObject_GetAttrString` returns for each name. -/
structure SiblingEnv where
  importOk : Bool
  attr : String → Option PyCallable

/-- Process-wide interpreter state touched by the shim: `sys.path`, plus two
ghost counters instrumenting how often an import and an attribute lookup
were attempted (the C code performs no other observable effects). -/
structure PyState where
  sysPath : List String
  importAttempts : Nat
  attrLookups : Nat
deriving DecidableEq

/-- Directory appended to `sys.path` by `call_tool`. -/
def siblingDir : String := "/workspace/project/xtools/backend/python"

def moduleNotFoundEnv : String := "\x7b\"success\":false,\"error\":\"Module not found\"\x7d"

def functionNotFoundEnv : String := "\x7b\"success\":false,\"error\":\"Function not found\"\x7d"

def callFailedEnv : String := "\x7b\"success\":false,\"error\":\"Call failed\"\x7d"

/-- Embedding of `call_tool`: append the sibling directory to `sys.path`,
then import `xtools_ffi_module` (error envelope `Module not found` on failure),
fetch the attribute and check callability (error envelope
`Function not found` on failure), call it (error envelope `Call failed` when
the call yields no result), otherwise return the result verbatim. -/
def call_tool (env : SiblingEnv) (st : PyState) (funcName : String) (args : List String) :
    PyState × PyObj :=
  let st1 : PyState :=
    { sysPath := st.sysPath ++ [siblingDir]
      importAttempts := st.importAttempts + 1
      attrLookups := st.attrLookups }
  if env.importOk then
    let st2 : PyState := { st1 with attrLookups := st1.attrLookups + 1 }
    match env.attr funcName with
    | none => (st2, PyObj.str functionNotFoundEnv)
    | some f =>
        if f.isCallable then
          match f.impl args with
          | none => (st2, PyObj.str callFailedEnv)
          | some r => (st2, r)
        else (st2, PyObj.str functionNotFoundEnv)
  else (st1, PyObj.str moduleNotFoundEnv)

/-- Decoding of a positional tuple by the repeated `"s"` format: every item
must be text. -/
def decodeS : List PyVal → Option (List String)
  | [] => some []
  | PyVal.str s :: rest => (decodeS rest).map (s :: ·)
  | PyVal.nonStr :: _ => none

/-- Embedding of `PyArg_ParseTuple` with a format of `arity` many `"s"`:
fails (sets a TypeError) unless the tuple has exactly `arity` items, all
decodable as text. -/
def parseTupleS (arity : Nat) (args : List PyVal) : Option (List String) :=
  if args.length = arity then decodeS args else none

/-- What an entry point hands back to the CPython host: an object, or NULL
(`exn`), which the host surfaces as a native exception. -/
inductive FfiRet where
  | obj : PyObj → FfiRet
  | exn : FfiRet
deriving DecidableEq

def ffi_gofile_upload (env : SiblingEnv) (st : PyState) (args : List PyVal) :
    PyState × FfiRet :=
  match parseTupleS 1 args with
  | none => (st, FfiRet.exn)
  | some strs =>
      let r := call_tool env st "gofile_upload_func" strs
      (r.1, FfiRet.obj r.2)

def ffi_run_sort (env : SiblingEnv) (st : PyState) (args : List PyVal) :
    PyState × FfiRet :=
  match parseTupleS 1 args with
  | none => (st, FfiRet.exn)
  | some strs =>
      let r := call_tool env st "run_sort" strs
      (r.1, FfiRet.obj r.2)

def ffi_run_filter (env : SiblingEnv) (st : PyState) (args : List PyVal) :
    PyState × FfiRet :=
  match parseTupleS 1 args with
  | none => (st, FfiRet.exn)
  | some strs =>
      let r := call_tool env st "run_filter" strs
      (r.1, FfiRet.obj r.2)

def ffi_run_dedup (env : SiblingEnv) (st : PyState) (args : List PyVal) :
    PyState × FfiRet :=
  match parseTupleS 1 args with
  | none => (st, FfiRet.exn)
  | some strs =>
      let r := call_tool env st "run_dedup" strs
      (r.1, FfiRet.obj r.2)

def ffi_run_split (env : SiblingEnv) (st : PyState) (args : List PyVal) :
    PyState × FfiRet :=
  match parseTupleS 1 args with
  | none => (st, FfiRet.exn)
  | some strs =>
      let r := call_tool env st "run_split" strs
      (r.1, FfiRet.obj r.2)

def ffi_run_remove (env : SiblingEnv) (st : PyState) (args : List PyVal) :
    PyState × FfiRet :=
  match parseTupleS 2 args with
  | none => (st, FfiRet.exn)
  | some strs =>
      let r := call_tool env st "run_remove" strs
      (r.1, FfiRet.obj r.2)

def ffi_discord_bot (env : SiblingEnv) (st : PyState) (args : List PyVal) :
    PyState × FfiRet :=
  match parseTupleS 5 args with
  | none => (st, FfiRet.exn)
  | some strs =>
      let r := call_tool env st "discord_bot" strs
      (r.1, FfiRet.obj r.2)

def ffi_telegram_bot (env : SiblingEnv) (st : PyState) (args : List PyVal) :
    PyState × FfiRet :=
  match parseTupleS 3 args with
  | none => (st, FfiRet.exn)
  | some strs =>
      let r := call_tool env st "telegram_bot" strs
      (r.1, FfiRet.obj r.2)

def ffi_run_scraper (env : SiblingEnv) (st : PyState) (args : List PyVal) :
    PyState × FfiRet :=
  match parseTupleS 1 args with
  | none => (st, FfiRet.exn)
  | some strs =>
      let r := call_tool env st "run_scraper" strs
      (r.1, FfiRet.obj r.2)

def ffi_run_combo (env : SiblingEnv) (st : PyState) (args : List PyVal) :
    PyState × FfiRet :=
  match parseTupleS 1 args with
  | none => (st, FfiRet.exn)
  | some strs =>
      let r := call_tool env st "run_combo" strs
      (r.1, FfiRet.obj r.2)

def ffi_run_captcha (env : SiblingEnv) (st : PyState) (args : List PyVal) :
    PyState × FfiRet :=
  match parseTupleS 1 args with
  | none => (st, FfiRet.exn)
  | some strs =>
      let r := call_tool env st "run_captcha" strs
      (r.1, FfiRet.obj r.2)

/-- The method table `XToolsMethods`: external name, entry function, doc
string (the `METH_VARARGS` convention is implicit in the argument type). -/
def XToolsMethods :
    List (String × (SiblingEnv → PyState → List PyVal → PyState × FfiRet) × String) :=
  [("gofile_upload", ffi_gofile_upload, "Upload to GoFile"),
   ("run_sort", ffi_run_sort, "Sort tool"),
   ("run_filter", ffi_run_filter, "Filter tool"),
   ("run_dedup", ffi_run_dedup, "Dedup tool"),
   ("run_split", ffi_run_split, "Split tool"),
   ("run_remove", ffi_run_remove, "Remove tool"),
   ("discord_bot", ffi_discord_bot, "Discord bot"),
   ("telegram_bot", ffi_telegram_bot, "Telegram bot"),
   ("run_scraper", ffi_run_scraper, "Scraper"),
   ("run_combo", ffi_run_combo, "Combo tool"),
   ("run_captcha", ffi_run_captcha, "Captcha tool")]

/-- The eleven entry points, as an enumeration for stating surface-wide
properties. -/
inductive EntryName where
  | gofile_upload
  | run_sort
  | run_filter
  | run_dedup
  | run_split
  | run_remove
  | discord_bot
  | telegram_bot
  | run_scraper
  | run_combo
  | run_captcha
deriving DecidableEq

def dispatch : EntryName → SiblingEnv → PyState → List PyVal → PyState × FfiRet
  | EntryName.gofile_upload => ffi_gofile_upload
  | EntryName.run_sort => ffi_run_sort
  | EntryName.run_filter => ffi_run_filter
  | EntryName.run_dedup => ffi_run_dedup
  | EntryName.run_split => ffi_run_split
  | EntryName.run_remove => ffi_run_remove
  | EntryName.discord_bot => ffi_discord_bot
  | EntryName.telegram_bot => ffi_telegram_bot
  | EntryName.run_scraper => ffi_run_scraper
  | EntryName.run_combo => ffi_run_combo
  | EntryName.run_captcha => ffi_run_captcha

/-- Declared arity of each entry point (the count of `"s"` items in its
`PyArg_ParseTuple` format). -/
def arity : EntryName → Nat
  | EntryName.run_remove => 2
  | EntryName.telegram_bot => 3
  | EntryName.discord_bot => 5
  | _ => 1

/-- A sequence of invocations against one environment, threading the
process-wide state. -/
def runCalls (env : SiblingEnv) (st : PyState) (calls : List (EntryName × List PyVal)) :
    PyState :=
  calls.foldl (fun s c => (dispatch c.1 env s c.2).1) st

/-- Occurrences of the sibling directory in a search path. -/
def countDir (l : List String) : Nat :=
  l.countP (fun d => d == siblingDir)

/-! ### Stub variant (`src/xtools/backend/python/xtools_ffi_stub.c`) -/

def stub_gofile_upload (args : List String) : Unit := ()

def stub_run_sort (args : List String) : Unit := ()

def stub_run_filter (args : List String) : Unit := ()

def stub_run_dedup (args : List String) : Unit := ()

def stub_run_split (args : List String) : Unit := ()

def stub_run_remove (args : List String) : Unit := ()

def stub_discord_bot (args : List String) : Unit := ()

def stub_telegram_bot (args : List String) : Unit := ()

def stub_run_scraper (args : List String) : Unit := ()

def stub_run_combo (args : List String) : Unit := ()

def stub_run_captcha (args : List String) : Unit := ()

/-- The exported symbol table of the stub shared object. -/
def stubExports : List (String × (List String → Unit)) :=
  [("gofile_upload", stub_gofile_upload),
   ("run_sort", stub_run_sort),
   ("run_filter", stub_run_filter),
   ("run_dedup", stub_run_dedup),
   ("run_split", stub_run_split),
   ("run_remove", stub_run_remove),
   ("discord_bot", stub_discord_bot),
   ("telegram_bot", stub_telegram_bot),
   ("run_scraper", stub_run_scraper),
   ("run_combo", stub_run_combo),
   ("run_captcha", stub_run_captcha)]

/-- The library-load callback of the stub: returns TRUE unconditionally. -/
def DllMain (hinstDLL fdwReason lpvReserved : Nat) : Bool :=
  true

/-- State after `call_tool` has appended the sibling directory and attempted
the import, but before any attribute lookup. -/
def pathState (st : PyState) : PyState :=
  { sysPath := st.sysPath ++ [siblingDir]
    importAttempts := st.importAttempts + 1
    attrLookups := st.attrLookups }

/-- State after `call_tool` has appended the sibling directory, imported the
module and performed the attribute lookup. -/
def locState (st : PyState) : PyState :=
  { sysPath := st.sysPath ++ [siblingDir]
    importAttempts := st.importAttempts + 1
    attrLookups := st.attrLookups + 1 }

/-- The error envelopes built inside `call_tool` itself. -/
def coreErrorEnvelopes : List String :=
  [moduleNotFoundEnv, functionNotFoundEnv, callFailedEnv]

/-- The implementation name each entry point resolves (table of section 4.4). -/
def implName : EntryName → String
  | EntryName.gofile_upload => "gofile_upload_func"
  | EntryName.run_sort => "run_sort"
  | EntryName.run_filter => "run_filter"
  | EntryName.run_dedup => "run_dedup"
  | EntryName.run_split => "run_split"
  | EntryName.run_remove => "run_remove"
  | EntryName.discord_bot => "discord_bot"
  | EntryName.telegram_bot => "telegram_bot"
  | EntryName.run_scraper => "run_scraper"
  | EntryName.run_combo => "run_combo"
  | EntryName.run_captcha => "run_captcha"

/-- The eleven external names in declaration order. -/
def entryNames : List String :=
  ["gofile_upload", "run_sort", "run_filter", "run_dedup", "run_split",
   "run_remove", "discord_bot", "telegram_bot", "run_scraper", "run_combo",
   "run_captcha"]

/-- Envelope the spec's section 7 prescribes for marshalling failures; no
code path of the repository ever builds this document. -/
def badArgumentsEnv : String := "\x7b\"success\":false,\"error\":\"bad_arguments\"\x7d"

/-- Envelope the spec's section 7 prescribes for a missing attribute; the
code's actual string is `functionNotFoundEnv`. -/
def functionNotFoundSpecEnv : String :=
  "\x7b\"success\":false,\"error\":\"function_not_found\"\x7d"

/-- The process state at interpreter start, before any invocation. -/
def stEmpty : PyState :=
  { sysPath := [], importAttempts := 0, attrLookups := 0 }

/-- An environment in which importing the sibling module fails. -/
def envNoModule : SiblingEnv :=
  { importOk := false, attr := fun _ => none }

/-- An environment in which the sibling module imports but has no
attributes at all. -/
def envNoAttr : SiblingEnv :=
  { importOk := true, attr := fun _ => none }

def removedEnv : String := "\x7b\"success\":true,\"removed\":3\x7d"

/-- A sibling implementation of `run_remove` that returns the envelope of
the spec's concrete scenario 1 on every call. -/
def removeImpl : PyCallable :=
  { isCallable := true, impl := fun _ => some (PyObj.str removedEnv) }

/-- An environment whose sibling module carries only `run_remove`. -/
def envRemove : SiblingEnv :=
  { importOk := true
    attr := fun name => if name = "run_remove" then some removeImpl else none }

/-- A sibling implementation returning a number rather than an envelope. -/
def intImpl : PyCallable :=
  { isCallable := true, impl := fun _ => some (PyObj.int 7) }

/-- An environment resolving every name to the number-returning callable. -/
def envInt : SiblingEnv :=
  { importOk := true, attr := fun _ => some intImpl }

/-! ### Helper lemmas -/

theorem scan_good (l : List Char) (h : goodChars l = true) :
    l.foldl step ScanState.inStr = ScanState.inStr := by
  induction l with
  | nil => rfl
  | cons ch t ih =>
      simp only [goodChars, List.all_cons, Bool.and_eq_true, bne_iff_ne, ne_eq] at h
      have hq : ch ≠ '"' := h.1.1
      have hb : ch ≠ '\\' := h.1.2
      have hstep : step ScanState.inStr ch = ScanState.inStr := by
        simp [step, hq, hb]
      have ht : goodChars t = true := by
        simp [goodChars, List.all_eq_true] at h ⊢
        intro x hx
        exact h.2 x hx
      simpa [List.foldl_cons, hstep] using ih ht

theorem call_tool_import_fail (env : SiblingEnv) (st : PyState) (name : String)
    (args : List String) (h : env.importOk = false) :
    call_tool env st name args = (pathState st, PyObj.str moduleNotFoundEnv) := by
  simp [call_tool, h, pathState]

theorem call_tool_attr_none (env : SiblingEnv) (st : PyState) (name : String)
    (args : List String) (h1 : env.importOk = true) (h2 : env.attr name = none) :
    call_tool env st name args = (locState st, PyObj.str functionNotFoundEnv) := by
  simp [call_tool, h1, h2, locState]

theorem call_tool_not_callable (env : SiblingEnv) (st : PyState) (name : String)
    (args : List String) (f : PyCallable) (h1 : env.importOk = true)
    (h2 : env.attr name = some f) (h3 : f.isCallable = false) :
    call_tool env st name args = (locState st, PyObj.str functionNotFoundEnv) := by
  simp [call_tool, h1, h2, h3, locState]

theorem call_tool_call_fail (env : SiblingEnv) (st : PyState) (name : String)
    (args : List String) (f : PyCallable) (h1 : env.importOk = true)
    (h2 : env.attr name = some f) (h3 : f.isCallable = true)
    (h4 : f.impl args = none) :
    call_tool env st name args = (locState st, PyObj.str callFailedEnv) := by
  simp [call_tool, h1, h2, h3, h4, locState]

theorem call_tool_success (env : SiblingEnv) (st : PyState) (name : String)
    (args : List String) (f : PyCallable) (r : PyObj) (h1 : env.importOk = true)
    (h2 : env.attr name = some f) (h3 : f.isCallable = true)
    (h4 : f.impl args = some r) :
    call_tool env st name args = (locState st, r) := by
  simp [call_tool, h1, h2, h3, h4, locState]

theorem call_tool_snd_cases (env : SiblingEnv) (st : PyState) (name : String)
    (args : List String) :
    (call_tool env st name args).2 ∈ coreErrorEnvelopes.map PyObj.str ∨
      ∃ f r, env.attr name = some f ∧ f.impl args = some r ∧
        (call_tool env st name args).2 = r := by
  by_cases h1 : env.importOk = true
  · cases h2 : env.attr name with
    | none => left; simp [call_tool_attr_none env st name args h1 h2, coreErrorEnvelopes]
    | some f =>
        by_cases h3 : f.isCallable = true
        · cases h4 : f.impl args with
          | none =>
              left
              simp [call_tool_call_fail env st name args f h1 h2 h3 h4, coreErrorEnvelopes]
          | some r =>
              right
              exact ⟨f, r, rfl, h4, by
                simp [call_tool_success env st name args f r h1 h2 h3 h4]⟩
        · left
          have h3f : f.isCallable = false := by simpa using h3
          simp [call_tool_not_callable env st name args f h1 h2 h3f, coreErrorEnvelopes]
  · left
    have h1f : env.importOk = false := by simpa using h1
    simp [call_tool_import_fail env st name args h1f, coreErrorEnvelopes]

theorem parseTupleS_wrong_arity (k : Nat) (args : List PyVal) (h : args.length ≠ k) :
    parseTupleS k args = none := by
  simp [parseTupleS, h]

theorem decodeS_all_str (strs : List String) :
    decodeS (strs.map PyVal.str) = some strs := by
  induction strs with
  | nil => rfl
  | cons s t ih => simp [decodeS, ih]

theorem parseTupleS_all_str (k : Nat) (strs : List String) (h : strs.length = k) :
    parseTupleS k (strs.map PyVal.str) = some strs := by
  simp [parseTupleS, h, decodeS_all_str]

theorem dispatch_wrong_arity (n : EntryName) (env : SiblingEnv) (st : PyState)
    (args : List PyVal) (h : args.length ≠ arity n) :
    dispatch n env st args = (st, FfiRet.exn) := by
  cases n <;>
    simp_all [dispatch, arity, ffi_gofile_upload, ffi_run_sort, ffi_run_filter,
      ffi_run_dedup, ffi_run_split, ffi_run_remove, ffi_discord_bot,
      ffi_telegram_bot, ffi_run_scraper, ffi_run_combo, ffi_run_captcha,
      parseTupleS_wrong_arity]

theorem dispatch_parse_ok (n : EntryName) (env : SiblingEnv) (st : PyState)
    (args : List PyVal) (strs : List String)
    (h : parseTupleS (arity n) args = some strs) :
    dispatch n env st args =
      ((call_tool env st (implName n) strs).1,
        FfiRet.obj (call_tool env st (implName n) strs).2) := by
  cases n <;>
    simp_all [dispatch, arity, implName, ffi_gofile_upload, ffi_run_sort,
      ffi_run_filter, ffi_run_dedup, ffi_run_split, ffi_run_remove,
      ffi_discord_bot, ffi_telegram_bot, ffi_run_scraper, ffi_run_combo,
      ffi_run_captcha]

theorem dispatch_parse_none (n : EntryName) (env : SiblingEnv) (st : PyState)
    (args : List PyVal) (h : parseTupleS (arity n) args = none) :
    dispatch n env st args = (st, FfiRet.exn) := by
  cases n <;>
    simp_all [dispatch, arity, ffi_gofile_upload, ffi_run_sort, ffi_run_filter,
      ffi_run_dedup, ffi_run_split, ffi_run_remove, ffi_discord_bot,
      ffi_telegram_bot, ffi_run_scraper, ffi_run_combo, ffi_run_captcha]

theorem call_tool_sysPath (env : SiblingEnv) (st : PyState) (name : String)
    (args : List String) :
    (call_tool env st name args).1.sysPath = st.sysPath ++ [siblingDir] := by
  by_cases h1 : env.importOk = true
  · cases h2 : env.attr name with
    | none => simp [call_tool_attr_none env st name args h1 h2, locState]
    | some f =>
        by_cases h3 : f.isCallable = true
        · cases h4 : f.impl args with
          | none => simp [call_tool_call_fail env st name args f h1 h2 h3 h4, locState]
          | some r => simp [call_tool_success env st name args f r h1 h2 h3 h4, locState]
        · have h3f : f.isCallable = false := by simpa using h3
          simp [call_tool_not_callable env st name args f h1 h2 h3f, locState]
  · have h1f : env.importOk = false := by simpa using h1
    simp [call_tool_import_fail env st name args h1f, pathState]

theorem dispatch_sysPath (n : EntryName) (env : SiblingEnv) (st : PyState)
    (args : List PyVal) :
    (dispatch n env st args).1.sysPath =
      if (parseTupleS (arity n) args).isSome then st.sysPath ++ [siblingDir]
      else st.sysPath := by
  cases h : parseTupleS (arity n) args with
  | none => simp [dispatch_parse_none n env st args h]
  | some strs => simp [dispatch_parse_ok n env st args strs h, call_tool_sysPath]

theorem countDir_append_dir (l : List String) :
    countDir (l ++ [siblingDir]) = countDir l + 1 := by
  simp [countDir, List.countP_append, List.countP_cons]

theorem runCalls_countDir (env : SiblingEnv) (calls : List (EntryName × List PyVal)) :
    ∀ st : PyState, countDir (runCalls env st calls).sysPath =
      countDir st.sysPath +
        calls.countP (fun c => (parseTupleS (arity c.1) c.2).isSome) := by
  induction calls with
  | nil => intro st; simp [runCalls, List.countP_nil]
  | cons c cs ih =>
      intro st
      have h1 : runCalls env st (c :: cs) = runCalls env (dispatch c.1 env st c.2).1 cs := rfl
      rw [h1, ih]
      have h2 := dispatch_sysPath c.1 env st c.2
      by_cases hp : (parseTupleS (arity c.1) c.2).isSome = true
      · rw [List.countP_cons]
        simp only [hp, if_true] at h2
        rw [h2, countDir_append_dir]
        simp [hp]
        omega
      · rw [List.countP_cons]
        simp only [hp, Bool.false_eq_true, if_false] at h2
        rw [h2]
        simp [hp]

/-! ### Claims -/

/-- C1, counterexample: invoking `run_sort` with an empty argument tuple
(wrong arity) hands NULL back to the host — a native exception — rather
than any envelope, refuting "for every input the value returned to the
foreign host is a well-formed envelope". -/
theorem c1_counterexample :
    ffi_run_sort envNoModule stEmpty [] = (stEmpty, FfiRet.exn) := by
  rfl

/-- C1 (amended): the three envelopes built inside the core are well-formed
flat JSON objects; for every entry point invoked with a correctly shaped
tuple of text arguments, the host never receives a native exception, and
the returned object is either one of those three error envelopes or the
implementation's result.  (Marshalling failures, by contrast, do propagate
as native exceptions — the unamended claim fails there.) -/
theorem c1_core_errors_enveloped :
    ( IsFlatJsonObject moduleNotFoundEnv ∧ IsFlatJsonObject functionNotFoundEnv ∧
      IsFlatJsonObject callFailedEnv) ∧
    (∀ (n : EntryName) (env : SiblingEnv) (st : PyState) (strs : List String),
      strs.length = arity n →
      (dispatch n env st (strs.map PyVal.str)).2 ≠ FfiRet.exn) ∧
    (∀ (n : EntryName) (env : SiblingEnv) (st : PyState) (strs : List String),
      strs.length = arity n →
      (dispatch n env st (strs.map PyVal.str)).2 ∈
          coreErrorEnvelopes.map (fun e => FfiRet.obj (PyObj.str e)) ∨
        ∃ f r, env.attr (implName n) = some f ∧ f.impl strs = some r ∧
          (dispatch n env st (strs.map PyVal.str)).2 = FfiRet.obj r) := by
  refine ⟨⟨by decide, by decide, by decide⟩, ?_, ?_⟩
  · intro n env st strs h
    have hp := parseTupleS_all_str (arity n) strs h
    rw [dispatch_parse_ok n env st _ strs hp]
    simp
  · intro n env st strs h
    have hp := parseTupleS_all_str (arity n) strs h
    rw [dispatch_parse_ok n env st _ strs hp]
    rcases call_tool_snd_cases env st (implName n) strs with hmem | ⟨f, r, hf, hr, heq⟩
    · left
      simp only [List.mem_map] at hmem ⊢
      obtain ⟨e, he, heq2⟩ := hmem
      exact ⟨e, he, by rw [← heq2]⟩
    · right
      exact ⟨f, r, hf, hr, by rw [heq]⟩

/-- C1, witness: the amended theorem applied to `run_sort` with one text
argument in an environment where the import fails. -/
theorem c1_witness :
    ["x"].length = arity EntryName.run_sort ∧
    (dispatch EntryName.run_sort envNoModule stEmpty
        (["x"].map PyVal.str)).2 ≠ FfiRet.exn :=
  ⟨by decide,
   c1_core_errors_enveloped.2.1 EntryName.run_sort envNoModule stEmpty ["x"] (by decide)⟩

/-- C2, counterexample: `discord_bot` invoked with four arguments instead
of five does not produce the `bad_arguments` envelope the claim requires;
it returns NULL (a native exception) and leaves the state untouched. -/
theorem c2_counterexample :
    ffi_discord_bot envNoModule stEmpty
        [PyVal.str "a", PyVal.str "b", PyVal.str "c", PyVal.str "d"] =
      (stEmpty, FfiRet.exn) ∧
    FfiRet.exn ≠ FfiRet.obj (PyObj.str badArgumentsEnv) := by
  exact ⟨rfl, by decide⟩

/-- C2 (amended): for every entry point, an argument tuple of the wrong
arity yields a native marshalling failure (NULL) back to the host, and the
locator is never reached on that path: the returned state is exactly the
initial one, so no search-path append, no import attempt and no attribute
lookup occurs.  (The unamended claim's `bad_arguments` envelope is never
built.) -/
theorem c2_wrong_arity_native_error (n : EntryName) (env : SiblingEnv)
    (st : PyState) (args : List PyVal) (h : args.length ≠ arity n) :
    dispatch n env st args = (st, FfiRet.exn) :=
  dispatch_wrong_arity n env st args h

/-- C2, witness: the amended theorem applied to `discord_bot` with a
four-element tuple. -/
theorem c2_witness :
    [PyVal.str "a", PyVal.str "b", PyVal.str "c", PyVal.str "d"].length ≠
        arity EntryName.discord_bot ∧
    dispatch EntryName.discord_bot envNoModule stEmpty
        [PyVal.str "a", PyVal.str "b", PyVal.str "c", PyVal.str "d"] =
      (stEmpty, FfiRet.exn) :=
  ⟨by decide,
   c2_wrong_arity_native_error EntryName.discord_bot envNoModule stEmpty
     [PyVal.str "a", PyVal.str "b", PyVal.str "c", PyVal.str "d"] (by decide)⟩

/-- C3, counterexample: `run_sort` called against a sibling module with no
attribute `run_sort` returns the envelope with error `Function not found`,
not the `function_not_found` document the claim states. -/
theorem c3_counterexample :
    (ffi_run_sort envNoAttr stEmpty [PyVal.str "/tmp/missing.txt"]).2 =
      FfiRet.obj (PyObj.str functionNotFoundEnv) ∧
    functionNotFoundEnv ≠ functionNotFoundSpecEnv := by
  exact ⟨rfl, by decide⟩

/-- C3 (amended): the locator's failure mapping is exact, but the error
strings are `Module not found`, `Function not found` and `Call failed`
(capitalised, space-separated) rather than the snake_case tags of the
claim: import failure yields the module envelope; a missing or uncallable
attribute yields the function envelope; a call that raises yields the
call-failed envelope; in particular `run_sort` against a sibling module
with no attribute `run_sort` returns exactly the `Function not found`
document. -/
theorem c3_locator_failure_mapping :
    (∀ (env : SiblingEnv) (st : PyState) (name : String) (args : List String),
      env.importOk = false →
      (call_tool env st name args).2 = PyObj.str moduleNotFoundEnv) ∧
    (∀ (env : SiblingEnv) (st : PyState) (name : String) (args : List String),
      env.importOk = true → env.attr name = none →
      (call_tool env st name args).2 = PyObj.str functionNotFoundEnv) ∧
    (∀ (env : SiblingEnv) (st : PyState) (name : String) (args : List String)
        (f : PyCallable),
      env.importOk = true → env.attr name = some f → f.isCallable = false →
      (call_tool env st name args).2 = PyObj.str functionNotFoundEnv) ∧
    (∀ (env : SiblingEnv) (st : PyState) (name : String) (args : List String)
        (f : PyCallable),
      env.importOk = true → env.attr name = some f → f.isCallable = true →
      f.impl args = none →
      (call_tool env st name args).2 = PyObj.str callFailedEnv) ∧
    (∀ (env : SiblingEnv) (st : PyState) (a : String),
      env.importOk = true → env.attr "run_sort" = none →
      (ffi_run_sort env st [PyVal.str a]).2 =
        FfiRet.obj (PyObj.str functionNotFoundEnv)) := by
  refine ⟨?_, ?_, ?_, ?_, ?_⟩
  · intro env st name args h1
    simp [call_tool_import_fail env st name args h1]
  · intro env st name args h1 h2
    simp [call_tool_attr_none env st name args h1 h2]
  · intro env st name args f h1 h2 h3
    simp [call_tool_not_callable env st name args f h1 h2 h3]
  · intro env st name args f h1 h2 h3 h4
    simp [call_tool_call_fail env st name args f h1 h2 h3 h4]
  · intro env st a h1 h2
    have hp : parseTupleS 1 [PyVal.str a] = some [a] := by
      simp [parseTupleS, decodeS]
    simp [ffi_run_sort, hp, call_tool_attr_none env st "run_sort" [a] h1 h2]

/-- C3, witness: the amended theorem's `run_sort` conjunct applied to the
spec's concrete scenario. -/
theorem c3_witness :
    envNoAttr.importOk = true ∧ envNoAttr.attr "run_sort" = none ∧
    (ffi_run_sort envNoAttr stEmpty [PyVal.str "/tmp/missing.txt"]).2 =
      FfiRet.obj (PyObj.str functionNotFoundEnv) :=
  ⟨rfl, rfl,
   c3_locator_failure_mapping.2.2.2.2 envNoAttr stEmpty "/tmp/missing.txt" rfl rfl⟩

/-- C4: the method table exports exactly the eleven declared names in
order, and each entry point forwards exactly its declared text arguments,
in order, to its declared implementation name; on a successful call the
implementation's return value is handed back verbatim.  `locState st` is
the state after the one search-path append, import and attribute lookup of
the dispatched call. -/
theorem c4_dispatch_table :
    XToolsMethods.map (fun m => m.1) = entryNames ∧
    (∀ (env : SiblingEnv) (st : PyState) (f : PyCallable) (r : PyObj) (a : String),
      env.importOk = true → env.attr "gofile_upload_func" = some f →
      f.isCallable = true → f.impl [a] = some r →
      ffi_gofile_upload env st [PyVal.str a] = (locState st, FfiRet.obj r)) ∧
    (∀ (env : SiblingEnv) (st : PyState) (f : PyCallable) (r : PyObj) (a : String),
      env.importOk = true → env.attr "run_sort" = some f →
      f.isCallable = true → f.impl [a] = some r →
      ffi_run_sort env st [PyVal.str a] = (locState st, FfiRet.obj r)) ∧
    (∀ (env : SiblingEnv) (st : PyState) (f : PyCallable) (r : PyObj) (a : String),
      env.importOk = true → env.attr "run_filter" = some f →
      f.isCallable = true → f.impl [a] = some r →
      ffi_run_filter env st [PyVal.str a] = (locState st, FfiRet.obj r)) ∧
    (∀ (env : SiblingEnv) (st : PyState) (f : PyCallable) (r : PyObj) (a : String),
      env.importOk = true → env.attr "run_dedup" = some f →
      f.isCallable = true → f.impl [a] = some r →
      ffi_run_dedup env st [PyVal.str a] = (locState st, FfiRet.obj r)) ∧
    (∀ (env : SiblingEnv) (st : PyState) (f : PyCallable) (r : PyObj) (a : String),
      env.importOk = true → env.attr "run_split" = some f →
      f.isCallable = true → f.impl [a] = some r →
      ffi_run_split env st [PyVal.str a] = (locState st, FfiRet.obj r)) ∧
    (∀ (env : SiblingEnv) (st : PyState) (f : PyCallable) (r : PyObj) (a b : String),
      env.importOk = true → env.attr "run_remove" = some f →
      f.isCallable = true → f.impl [a, b] = some r →
      ffi_run_remove env st [PyVal.str a, PyVal.str b] = (locState st, FfiRet.obj r)) ∧
    (∀ (env : SiblingEnv) (st : PyState) (f : PyCallable) (r : PyObj)
        (t mh mu mp ch : String),
      env.importOk = true → env.attr "discord_bot" = some f →
      f.isCallable = true → f.impl [t, mh, mu, mp, ch] = some r →
      ffi_discord_bot env st
          [PyVal.str t, PyVal.str mh, PyVal.str mu, PyVal.str mp, PyVal.str ch] =
        (locState st, FfiRet.obj r)) ∧
    (∀ (env : SiblingEnv) (st : PyState) (f : PyCallable) (r : PyObj)
        (ai ah ph : String),
      env.importOk = true → env.attr "telegram_bot" = some f →
      f.isCallable = true → f.impl [ai, ah, ph] = some r →
      ffi_telegram_bot env st [PyVal.str ai, PyVal.str ah, PyVal.str ph] =
        (locState st, FfiRet.obj r)) ∧
    (∀ (env : SiblingEnv) (st : PyState) (f : PyCallable) (r : PyObj) (a : String),
      env.importOk = true → env.attr "run_scraper" = some f →
      f.isCallable = true → f.impl [a] = some r →
      ffi_run_scraper env st [PyVal.str a] = (locState st, FfiRet.obj r)) ∧
    (∀ (env : SiblingEnv) (st : PyState) (f : PyCallable) (r : PyObj) (a : String),
      env.importOk = true → env.attr "run_combo" = some f →
      f.isCallable = true → f.impl [a] = some r →
      ffi_run_combo env st [PyVal.str a] = (locState st, FfiRet.obj r)) ∧
    (∀ (env : SiblingEnv) (st : PyState) (f : PyCallable) (r : PyObj) (a : String),
      env.importOk = true → env.attr "run_captcha" = some f →
      f.isCallable = true → f.impl [a] = some r →
      ffi_run_captcha env st [PyVal.str a] = (locState st, FfiRet.obj r)) := by
  refine ⟨rfl, ?_, ?_, ?_, ?_, ?_, ?_, ?_, ?_, ?_, ?_, ?_⟩
  · intro env st f r a h1 h2 h3 h4
    have hp : parseTupleS 1 [PyVal.str a] = some [a] := by simp [parseTupleS, decodeS]
    simp [ffi_gofile_upload, hp,
      call_tool_success env st "gofile_upload_func" [a] f r h1 h2 h3 h4]
  · intro env st f r a h1 h2 h3 h4
    have hp : parseTupleS 1 [PyVal.str a] = some [a] := by simp [parseTupleS, decodeS]
    simp [ffi_run_sort, hp, call_tool_success env st "run_sort" [a] f r h1 h2 h3 h4]
  · intro env st f r a h1 h2 h3 h4
    have hp : parseTupleS 1 [PyVal.str a] = some [a] := by simp [parseTupleS, decodeS]
    simp [ffi_run_filter, hp, call_tool_success env st "run_filter" [a] f r h1 h2 h3 h4]
  · intro env st f r a h1 h2 h3 h4
    have hp : parseTupleS 1 [PyVal.str a] = some [a] := by simp [parseTupleS, decodeS]
    simp [ffi_run_dedup, hp, call_tool_success env st "run_dedup" [a] f r h1 h2 h3 h4]
  · intro env st f r a h1 h2 h3 h4
    have hp : parseTupleS 1 [PyVal.str a] = some [a] := by simp [parseTupleS, decodeS]
    simp [ffi_run_split, hp, call_tool_success env st "run_split" [a] f r h1 h2 h3 h4]
  · intro env st f r a b h1 h2 h3 h4
    have hp : parseTupleS 2 [PyVal.str a, PyVal.str b] = some [a, b] := by
      simp [parseTupleS, decodeS]
    simp [ffi_run_remove, hp,
      call_tool_success env st "run_remove" [a, b] f r h1 h2 h3 h4]
  · intro env st f r t mh mu mp ch h1 h2 h3 h4
    have hp : parseTupleS 5
        [PyVal.str t, PyVal.str mh, PyVal.str mu, PyVal.str mp, PyVal.str ch] =
        some [t, mh, mu, mp, ch] := by
      simp [parseTupleS, decodeS]
    simp [ffi_discord_bot, hp,
      call_tool_success env st "discord_bot" [t, mh, mu, mp, ch] f r h1 h2 h3 h4]
  · intro env st f r ai ah ph h1 h2 h3 h4
    have hp : parseTupleS 3 [PyVal.str ai, PyVal.str ah, PyVal.str ph] =
        some [ai, ah, ph] := by
      simp [parseTupleS, decodeS]
    simp [ffi_telegram_bot, hp,
      call_tool_success env st "telegram_bot" [ai, ah, ph] f r h1 h2 h3 h4]
  · intro env st f r a h1 h2 h3 h4
    have hp : parseTupleS 1 [PyVal.str a] = some [a] := by simp [parseTupleS, decodeS]
    simp [ffi_run_scraper, hp,
      call_tool_success env st "run_scraper" [a] f r h1 h2 h3 h4]
  · intro env st f r a h1 h2 h3 h4
    have hp : parseTupleS 1 [PyVal.str a] = some [a] := by simp [parseTupleS, decodeS]
    simp [ffi_run_combo, hp, call_tool_success env st "run_combo" [a] f r h1 h2 h3 h4]
  · intro env st f r a h1 h2 h3 h4
    have hp : parseTupleS 1 [PyVal.str a] = some [a] := by simp [parseTupleS, decodeS]
    simp [ffi_run_captcha, hp,
      call_tool_success env st "run_captcha" [a] f r h1 h2 h3 h4]

/-- C4, witness: the spec's scenario 1 — `run_remove` called with
`("/tmp/list.txt", "@bad.com")` against a sibling whose `run_remove`
returns the removed-3 envelope, which comes back verbatim. -/
theorem c4_witness :
    envRemove.importOk = true ∧
    envRemove.attr "run_remove" = some removeImpl ∧
    removeImpl.isCallable = true ∧
    removeImpl.impl ["/tmp/list.txt", "@bad.com"] = some (PyObj.str removedEnv) ∧
    ffi_run_remove envRemove stEmpty [PyVal.str "/tmp/list.txt", PyVal.str "@bad.com"] =
      (locState stEmpty, FfiRet.obj (PyObj.str removedEnv)) :=
  ⟨rfl, rfl, rfl, rfl,
   c4_dispatch_table.2.2.2.2.2.2.1 envRemove stEmpty removeImpl
     (PyObj.str removedEnv) "/tmp/list.txt" "@bad.com" rfl rfl rfl rfl⟩

/-- C5, counterexample: one invocation (`run_sort` with an empty tuple)
that fails marshalling leaves the search path without the sibling
directory, refuting "after N >= 1 invocations the search path contains
that directory exactly once (or at least once, never zero)". -/
theorem c5_counterexample :
    countDir (runCalls envNoModule stEmpty [(EntryName.run_sort, [])]).sysPath = 0 := by
  rfl

/-- C5 (amended): the only mutation any entry point performs on the
process-wide state is appending the sibling directory to the search path;
an invocation that passes marshalling appends exactly one copy and one that
fails marshalling appends none, so after any sequence of invocations the
directory's multiplicity is the initial one plus the number of invocations
that reached the locator — at least once as soon as one did, but zero if
none did and duplicated when several did. -/
theorem c5_search_path :
    (∀ (n : EntryName) (env : SiblingEnv) (st : PyState) (args : List PyVal),
      (dispatch n env st args).1.sysPath = st.sysPath ∨
        (dispatch n env st args).1.sysPath = st.sysPath ++ [siblingDir]) ∧
    (∀ (env : SiblingEnv) (st : PyState) (calls : List (EntryName × List PyVal)),
      countDir (runCalls env st calls).sysPath =
        countDir st.sysPath +
          calls.countP (fun c => (parseTupleS (arity c.1) c.2).isSome)) ∧
    (∀ (env : SiblingEnv) (st : PyState) (calls : List (EntryName × List PyVal)),
      1 ≤ calls.countP (fun c => (parseTupleS (arity c.1) c.2).isSome) →
      1 ≤ countDir (runCalls env st calls).sysPath) := by
  refine ⟨?_, ?_, ?_⟩
  · intro n env st args
    have h := dispatch_sysPath n env st args
    by_cases hp : (parseTupleS (arity n) args).isSome = true
    · right; simpa [hp] using h
    · left; simpa [hp] using h
  · intro env st calls
    exact runCalls_countDir env calls st
  · intro env st calls h
    have h2 := runCalls_countDir env calls st
    omega

/-- C5, witness: a one-call sequence that passes marshalling puts the
directory on the path at least once. -/
theorem c5_witness :
    1 ≤ [(EntryName.run_sort, [PyVal.str "/tmp/a"])].countP
        (fun c => (parseTupleS (arity c.1) c.2).isSome) ∧
    1 ≤ countDir
        (runCalls envNoModule stEmpty [(EntryName.run_sort, [PyVal.str "/tmp/a"])]).sysPath :=
  ⟨by decide,
   c5_search_path.2.2 envNoModule stEmpty [(EntryName.run_sort, [PyVal.str "/tmp/a"])]
     (by decide)⟩

/-- C6, counterexample: the mobile variant interpolates the caller's text
into the envelope without escaping, and this input — an api_key that is a
single quote character — yields a malformed document, refuting "the
document remains well-formed no matter what text the caller supplies". -/
theorem c6_counterexample :
    ¬ IsFlatJsonObject ( CheckXboxAccount "\"" "x") := by
  decide

/-- C6 (amended): the full variant's three core error envelopes are fixed
well-formed documents; the mobile variant's envelopes interpolate the
inputs unescaped, so well-formedness is not guaranteed for every input —
it does hold whenever every input is free of quote and backslash
characters and the formatted document fits the 1023-character capacity of
the static buffer.  (This condition is sufficient, not necessary: some
inputs containing those characters still happen to scan well-formed.) -/
theorem c6_envelopes_wellformed :
    ( IsFlatJsonObject moduleNotFoundEnv ∧ IsFlatJsonObject functionNotFoundEnv ∧
      IsFlatJsonObject callFailedEnv) ∧
    (∀ a b : String, goodChars a.data = true → goodChars b.data = true →
      (checkXboxChars a b).length ≤ 1023 →
      IsFlatJsonObject ( CheckXboxAccount a b)) ∧
    (∀ a b : String, goodChars a.data = true → goodChars b.data = true →
      (toolbotChars a b).length ≤ 1023 →
      IsFlatJsonObject ( InitializeToolbot a b)) ∧
    (∀ a h p : String, goodChars a.data = true →
      (telegramChars a).length ≤ 1023 →
      IsFlatJsonObject ( RunTelegramBot a h p)) := by
  refine ⟨⟨by decide, by decide, by decide⟩, ?_, ?_, ?_⟩
  · intro a b ha hb hlen
    unfold IsFlatJsonObject
    have hdata : jsonScan ( CheckXboxAccount a b) =
        List.foldl step ScanState.start (checkXboxChars a b) := by
      show List.foldl step ScanState.start ((checkXboxChars a b).take 1023) =
        List.foldl step ScanState.start (checkXboxChars a b)
      rw [List.take_of_length_le hlen]
    rw [hdata]
    unfold checkXboxChars
    simp only [List.foldl_append]
    have s1 : List.foldl step ScanState.start
        ("\x7b\"success\":true,\"message\":\"Android check\",\"api_key\":\"".data) =
        ScanState.inStr := by decide
    rw [s1, scan_good a.data ha]
    have s2 : List.foldl step ScanState.inStr ("\",\"combo_file\":\"".data) =
        ScanState.inStr := by decide
    rw [s2, scan_good b.data hb]
    decide
  · intro a b ha hb hlen
    unfold IsFlatJsonObject
    have hdata : jsonScan ( InitializeToolbot a b) =
        List.foldl step ScanState.start (toolbotChars a b) := by
      show List.foldl step ScanState.start ((toolbotChars a b).take 1023) =
        List.foldl step ScanState.start (toolbotChars a b)
      rw [List.take_of_length_le hlen]
    rw [hdata]
    unfold toolbotChars
    simp only [List.foldl_append]
    have s1 : List.foldl step ScanState.start
        ("\x7b\"success\":true,\"message\":\"Toolbot initialized\",\"data_dir\":\"".data) =
        ScanState.inStr := by decide
    rw [s1, scan_good a.data ha]
    have s2 : List.foldl step ScanState.inStr ("\",\"wordlist_dir\":\"".data) =
        ScanState.inStr := by decide
    rw [s2, scan_good b.data hb]
    decide
  · intro a h p ha hlen
    unfold IsFlatJsonObject
    have hdata : jsonScan ( RunTelegramBot a h p) =
        List.foldl step ScanState.start (telegramChars a) := by
      show List.foldl step ScanState.start ((telegramChars a).take 1023) =
        List.foldl step ScanState.start (telegramChars a)
      rw [List.take_of_length_le hlen]
    rw [hdata]
    unfold telegramChars
    simp only [List.foldl_append]
    have s1 : List.foldl step ScanState.start
        ("\x7b\"success\":true,\"message\":\"Telegram bot\",\"api_id\":\"".data) =
        ScanState.inStr := by decide
    rw [s1, scan_good a.data ha]
    decide

/-- C6, witness: the amended theorem applied to the benign inputs of the
spec's mobile scenario. -/
theorem c6_witness :
    goodChars ("KEY1" : String).data = true ∧
    goodChars ("combo.txt" : String).data = true ∧
    (checkXboxChars "KEY1" "combo.txt").length ≤ 1023 ∧
    IsFlatJsonObject ( CheckXboxAccount "KEY1" "combo.txt") :=
  ⟨by decide, by decide, by decide,
   c6_envelopes_wellformed.2.1 "KEY1" "combo.txt" (by decide) (by decide) (by decide)⟩

/-- C7: `CheckXboxAccount("KEY1", "combo.txt")` returns the success
envelope echoing both inputs exactly. -/
theorem c7_check_xbox_echo :
    CheckXboxAccount "KEY1" "combo.txt" =
      "\x7b\"success\":true,\"message\":\"Android check\",\"api_key\":\"KEY1\",\"combo_file\":\"combo.txt\"\x7d" := by
  rfl

/-- C8: the stub exports exactly the eleven entry-point names; invoking any
exported symbol with any arguments returns nothing and has no observable
effect; and `DllMain` returns TRUE for every combination of its
arguments. -/
theorem c8_stub_surface :
    stubExports.map (fun e => e.1) = entryNames ∧
    (∀ e ∈ stubExports, ∀ args : List String, e.2 args = ()) ∧
    (∀ h r l : Nat, DllMain h r l = true) := by
  refine ⟨rfl, ?_, fun _ _ _ => rfl⟩
  intro e he args
  rfl

/-- C8, witness: the theorem applied to the `run_sort` stub symbol and a
concrete `DllMain` call. -/
theorem c8_witness :
    ("run_sort", stub_run_sort) ∈ stubExports ∧
    stub_run_sort ["x"] = () ∧ DllMain 0 0 0 = true :=
  ⟨List.Mem.tail _ (List.Mem.head _),
   c8_stub_surface.2.1 ("run_sort", stub_run_sort)
     (List.Mem.tail _ (List.Mem.head _)) ["x"],
   c8_stub_surface.2.2 0 0 0⟩

/-- C9: on the success path the dispatch core returns whatever object the
sibling implementation returned, unmodified and unvalidated — even when it
is not an envelope at all. -/
theorem c9_verbatim_passthrough :
    ∀ (env : SiblingEnv) (st : PyState) (name : String) (args : List String)
      (f : PyCallable) (r : PyObj),
      env.importOk = true → env.attr name = some f → f.isCallable = true →
      f.impl args = some r →
      (call_tool env st name args).2 = r := by
  intro env st name args f r h1 h2 h3 h4
  simp [call_tool_success env st name args f r h1 h2 h3 h4]

/-- C9, witness: an implementation returning the number 7 has that number
handed back to the host as-is. -/
theorem c9_witness :
    envInt.importOk = true ∧ envInt.attr "run_sort" = some intImpl ∧
    intImpl.isCallable = true ∧ intImpl.impl ["x"] = some (PyObj.int 7) ∧
    (call_tool envInt stEmpty "run_sort" ["x"]).2 = PyObj.int 7 :=
  ⟨rfl, rfl, rfl, rfl,
   c9_verbatim_passthrough envInt stEmpty "run_sort" ["x"] intImpl (PyObj.int 7)
     rfl rfl rfl rfl⟩

/-- C10: the output of `RunTelegramBot` depends only on its first argument
`apiId`: two calls with equal `apiId` and arbitrary `apiHash` and `phone`
return identical envelope texts, and the envelope is a function of `apiId`
alone (`apiHash` and `phone` are never interpolated into it). -/
theorem c10_telegram_first_arg_only :
    (∀ apiId h1 p1 h2 p2 : String,
      RunTelegramBot apiId h1 p1 = RunTelegramBot apiId h2 p2) ∧
    (∀ apiId h p : String,
      RunTelegramBot apiId h p = snprintf1024 (telegramChars apiId)) :=
  ⟨fun _ _ _ _ _ => rfl, fun _ _ _ => rfl⟩
